/-
Verification of the task-runner / scanner / chat core of `my-webapp-hf`.

Shallow embedding of:
  * `public/src/utils/taskRunner.js`   (TaskRunner class)
  * `public/src/services/project.js`   (ProjectService report cache)
  * `public/src/agents/scanner.js`     (ScannerAgent.performScan)
  * `public/src/agents/chat.js`        (ChatAgent.processMessage)

JavaScript conventions mapped to Lean:
  * async functions that may reject are modelled as `Except String α`
    (rejection = `.error msg`, where `msg` is the error's `.message`);
  * object mutation is modelled by explicit state passing;
  * wall-clock times (`Date.now()`, ISO timestamps) are `Nat` parameters;
  * external collaborator calls (GitHub API, Gemini) are parameters holding
    the outcome the collaborator would produce on this call.
-/
import Mathlib

deriving instance DecidableEq for Except

namespace WebappHF

/-! ## Task runner (`public/src/utils/taskRunner.js`) -/

/-- Status strings used by `taskRunner.js` (`'pending' | 'running' | 'completed' | 'failed'`). -/
inductive Status where
  | pending
  | running
  | completed
  | failed
deriving DecidableEq, Repr

/-- A queued task as built by `addTask` (taskRunner.js lines 33-44).
`exec` is the task's `execute` function; attempt `k`'s outcome is `exec k`
(`.ok v` = the promise resolved with `v` before the timeout,
`.error m` = it rejected, or the timeout promise won the race with message `m`). -/
structure Task where
  id : Int
  name : String
  priority : Int
  exec : Nat → Except String String
  retries : Nat
  timeout : Nat
  status : Status
  result : Option String
  error : Option String
  attempts : Nat

/-- A task specification as passed to `addTask` (fields of the JS object
destructured at taskRunner.js lines 20-27). `none` models an absent
(`undefined`) property; defaults apply via `getD` exactly where the JS
destructuring defaults apply. -/
structure TaskSpec where
  id : Option Int
  name : Option String
  priority : Option Int
  execute : Option (Nat → Except String String)
  retries : Option Nat
  timeout : Option Nat

/-- JS truthiness of the `id` value: `undefined` and `0` are falsy. -/
def jsFalsyId : Option Int → Bool
  | none => true
  | some v => v == 0

/-- JS truthiness of the `name` value: `undefined` and `''` are falsy. -/
def jsFalsyName : Option String → Bool
  | none => true
  | some s => s == ""

/-- The TaskRunner instance state (`this.tasks`, `this.isRunning`, `this.executedTasks`). -/
structure RunnerState where
  tasks : List Task
  isRunning : Bool
  executedTasks : List Task

/-- State of `new TaskRunner()` (taskRunner.js lines 9-13). -/
def initRunner : RunnerState := { tasks := [], isRunning := false, executedTasks := [] }

/-- The comparator order of `this.tasks.sort((a, b) => b.priority - a.priority)`:
`a` may stay before `b` iff the comparator is `≤ 0`, i.e. `b.priority ≤ a.priority`. -/
def taskGE (a b : Task) : Prop := b.priority ≤ a.priority

instance : DecidableRel taskGE := fun a b => inferInstanceAs (Decidable (b.priority ≤ a.priority))

instance : IsTotal Task taskGE := ⟨fun a b => le_total b.priority a.priority⟩

instance : IsTrans Task taskGE := ⟨fun _ _ _ h1 h2 => le_trans h2 h1⟩

/-- Model of `Array.prototype.sort` with the comparator above: a stable sort by descending
priority. `List.insertionSort` is a stable sort, hence extensionally the sort the
JS engine performs (stable sorting functions for a fixed total preorder agree). -/
def sortTasks (l : List Task) : List Task := List.insertionSort taskGE l

/-- Model of `addTask(task)` (taskRunner.js lines 19-50): validate `id`/`name`/`execute`
are truthy, apply defaults (priority 5, retries 3, timeout 30000), push the new
pending task, then sort the whole list by descending priority.
A thrown validation error is `.error`; it happens before the push, so the state
is untouched on rejection. -/
def addTask (s : RunnerState) (spec : TaskSpec) : Except String RunnerState :=
  if jsFalsyId spec.id || jsFalsyName spec.name || spec.execute.isNone then
    Except.error "Task must have id, name, and execute function"
  else
    Except.ok { s with
      tasks := sortTasks (s.tasks ++ [{
        id := spec.id.getD 0
        name := spec.name.getD ""
        priority := spec.priority.getD 5
        exec := spec.execute.getD (fun _ => Except.error "")
        retries := spec.retries.getD 3
        timeout := spec.timeout.getD 30000
        status := Status.pending
        result := none
        error := none
        attempts := 0 }]) }

/-- A sequence of `addTask` calls by a caller that catches validation throws:
a rejected submission leaves the runner unchanged. -/
def submitAll (s : RunnerState) (specs : List TaskSpec) : RunnerState :=
  specs.foldl (fun st sp => match addTask st sp with
    | Except.ok st1 => st1
    | Except.error _ => st) s

/-- The retry loop of `executeTask` (taskRunner.js lines 93-130), unrolled on the
number of attempts still allowed (`remaining = task.retries - attempt + 1` at
entry, so the loop guard `attempt <= task.retries` is `remaining > 0`).
Returns the mutated task together with the list of backoff delays awaited,
in order (`1000 * attempt` ms before each retry, line 127).
The `remaining = 0` base case is the loop never running (`retries = 0`):
the code falls through to lines 132-133 with `lastError` still `undefined`. -/
def execAttempts : Task → Nat → Nat → Task × List Nat
  | t, _, 0 => ({ t with status := Status.failed, error := none }, [])
  | t, attempt, rem + 1 =>
    let t1 := { t with attempts := attempt, status := Status.running }
    match t1.exec attempt with
    | Except.ok v => ({ t1 with status := Status.completed, result := some v }, [])
    | Except.error e =>
      if rem = 0 then
        ({ t1 with status := Status.failed, error := some e }, [])
      else
        let r := execAttempts t1 (attempt + 1) rem
        (r.fst, 1000 * attempt :: r.snd)

/-- Model of `executeTask(task)` (taskRunner.js lines 90-141) minus the history push,
which `runAll` below performs with the same per-task order as the source's
`this.executedTasks.push({ ...task })`. Never throws: the terminal task is data. -/
def executeTask (t : Task) : Task × List Nat := execAttempts t 1 t.retries

/-- Model of `runAll()` (taskRunner.js lines 56-83): single-flight guard, then execute
every entry of `this.tasks` sequentially in list order. Each executed task is
returned (collected into `results`), remains in `this.tasks` (the source never
removes it; the list entry is the same mutated object), and a snapshot copy is
appended to `this.executedTasks` in execution order. -/
def runAll (s : RunnerState) : List Task × RunnerState :=
  if s.isRunning then ([], s)
  else
    let finals := s.tasks.map (fun t => (executeTask t).fst)
    (finals, { s with
      tasks := finals
      executedTasks := s.executedTasks ++ finals
      isRunning := false })

/-- Model of `clear()` (taskRunner.js lines 146-150). -/
def clearRunner (s : RunnerState) : RunnerState :=
  { s with tasks := [], executedTasks := [] }

/-- Model of `getHistory()` (taskRunner.js lines 156-158). -/
def getHistory (s : RunnerState) : List Task := s.executedTasks

/-- Boolean success test on `Except`, a specialised helper usable in decidable statements. -/
def isOkB {α : Type} : Except String α → Bool
  | Except.ok _ => true
  | Except.error _ => false

/-! ## Project service / report cache (`public/src/services/project.js`) -/

/-- One file entry of the structure snapshot (`structure.files` items, project.js lines 38-42). -/
structure FileEntry where
  name : String
  path : String
  size : Nat
deriving DecidableEq, Repr

/-- One directory entry of the structure snapshot (`structure.directories` items). -/
structure DirEntry where
  name : String
  path : String
deriving DecidableEq, Repr

/-- A project structure snapshot (`structure` object, project.js lines 30-34).
`timestamp` stands for the ISO string `new Date().toISOString()`, modelled as
the numeric time at which it was produced. -/
structure ProjStructure where
  files : List FileEntry
  directories : List DirEntry
  timestamp : Nat
deriving DecidableEq, Repr

/-- The `type` discriminator of a GitHub contents-API entry. -/
inductive EntryType where
  | file
  | dir
  | other
deriving DecidableEq, Repr

/-- One entry returned by the remote reader (`githubService.listFiles('')`). -/
structure RemoteEntry where
  name : String
  path : String
  size : Nat
  type : EntryType
deriving DecidableEq, Repr

/-- The ProjectService cache state (`this.cachedProjectStructure`, `this.cacheExpiry`). -/
structure ProjectServiceState where
  cachedProjectStructure : Option ProjStructure
  cacheExpiry : Nat
deriving DecidableEq, Repr

/-- State of `new ProjectService()` (project.js lines 10-14). -/
def initProjectService : ProjectServiceState := { cachedProjectStructure := none, cacheExpiry := 0 }

/-- Constant `this.CACHE_TTL = 5 * 60 * 1000` (project.js line 13). -/
def CACHE_TTL : Nat := 5 * 60 * 1000

/-- Outcome of one `getProjectStructure()` call: the settled value of the
returned promise, the cache state afterwards, and how many times the remote
reader (`githubService.listFiles`) was invoked during the call. -/
structure CacheGetResult where
  result : Except String ProjStructure
  state : ProjectServiceState
  remoteCalls : Nat
deriving DecidableEq, Repr

/-- The loop partitioning remote entries into files vs. directories
(project.js lines 36-49); entries of any other `type` are dropped. -/
def buildStructure (root : List RemoteEntry) (now : Nat) : ProjStructure :=
  { files := (root.filter (fun i => i.type == EntryType.file)).map
      (fun i => { name := i.name, path := i.path, size := i.size })
    directories := (root.filter (fun i => i.type == EntryType.dir)).map
      (fun i => { name := i.name, path := i.path })
    timestamp := now }

/-- Model of `getMockProjectStructure()` (project.js lines 71-88): the fixed demo
structure returned when the remote read fails. -/
def getMockProjectStructure (now : Nat) : ProjStructure :=
  { files := [
      { name := "package.json", path := "package.json", size := 850 },
      { name := "Dockerfile", path := "Dockerfile", size := 320 },
      { name := "README.md", path := "README.md", size := 2050 },
      { name := ".env.example", path := ".env.example", size := 450 },
      { name := ".gitignore", path := ".gitignore", size := 280 }]
    directories := [
      { name := "public", path := "public" },
      { name := "src", path := "src" },
      { name := "assets", path := "assets" },
      { name := "scripts", path := "scripts" }]
    timestamp := now }

/-- The cache-miss branch of `getProjectStructure()` (project.js lines 28-64):
call the remote reader; on success partition, stamp, store with
`expiry = now + CACHE_TTL` and return; on failure the `catch` swallows the
error and returns the mock structure without touching the cache. -/
def getProjectStructureFetch (s : ProjectServiceState) (now : Nat)
    (remote : Except String (List RemoteEntry)) : CacheGetResult :=
  match remote with
  | Except.ok root =>
    let st := buildStructure root now
    { result := Except.ok st
      state := { cachedProjectStructure := some st, cacheExpiry := now + CACHE_TTL }
      remoteCalls := 1 }
  | Except.error _ =>
    { result := Except.ok (getMockProjectStructure now)
      state := s
      remoteCalls := 1 }

/-- Model of `getProjectStructure()` (project.js lines 20-65): cache hit iff there is a
cached snapshot and `now < this.cacheExpiry` (line 23); otherwise fetch.
`remote` is the outcome the remote reader would produce if invoked on this call. -/
def getProjectStructure (s : ProjectServiceState) (now : Nat)
    (remote : Except String (List RemoteEntry)) : CacheGetResult :=
  match s.cachedProjectStructure with
  | some c =>
    if now < s.cacheExpiry then { result := Except.ok c, state := s, remoteCalls := 0 }
    else getProjectStructureFetch s now remote
  | none => getProjectStructureFetch s now remote

/-! ## Scanner agent (`public/src/agents/scanner.js`) -/

/-- One detected issue ( items produced by `scanForIssues`, project.js lines 126-158). -/
structure Issue where
  type : String
  severity : String
  file : String
  message : String
deriving DecidableEq, Repr

/-- The value resolved by `projectService.scanForIssues()` (project.js lines 166-170). -/
structure IssuesResult where
  issues : List Issue
  timestamp : Nat
  scanDuration : String
deriving DecidableEq, Repr

/-- One per-file analysis entry (`analysis.files` items, scanner.js lines 126-129).
The `analysis` payload is the structured-or-raw collaborator response, kept opaque. -/
structure FileAnalysis where
  name : String
  analysis : String
deriving DecidableEq, Repr

/-- The `analysis` object built by `analyzeProject` (scanner.js lines 112-115). -/
structure Analysis where
  files : List FileAnalysis
  overallHealth : String
deriving DecidableEq, Repr

/-- One recommendation entry (scanner.js lines 150-156 and 175-181). -/
structure Recommendation where
  priority : String
  suggestion : String
  reason : String
deriving DecidableEq, Repr

/-- The scan report assembled by `performScan` (scanner.js lines 72-79).
`projStructure` is the source's `structure` field (renamed: `structure` is a
Lean keyword). -/
structure Report where
  timestamp : Nat
  duration : Nat
  projStructure : ProjStructure
  issues : List Issue
  analysis : Analysis
  recommendations : List Recommendation
deriving DecidableEq, Repr

/-- The ScannerAgent state relevant to scanning (`this.lastScan`). -/
structure ScannerState where
  lastScan : Option Report
deriving DecidableEq, Repr

/-- Config flags read by `performScan` (config/env.js). -/
structure ScanConfig where
  enableAutoFix : Bool
  enableAutoModify : Bool
deriving DecidableEq, Repr

/-- Collaborator outcomes for one `performScan()` call: what each awaited call
would settle to if made during this scan. -/
structure ScanCollab where
  structureRes : Except String ProjStructure
  issuesRes : Except String IssuesResult
  sourceFilesRes : Except String (List FileEntry)
  fileAnalysisRes : String → Except String String
  recGenRes : Except String String
  createIssueRes : Except String Nat
  autoModifyRes : Except String Unit

/-- Model of `analyzeProject()` (scanner.js lines 109-140): fetch the source-file list
(`getSourceFiles` itself returns `[]` on its own failure, project.js lines
283-286, and the outer catch here returns the error analysis), then analyse the
first 5 files, each inside a try that logs and skips on failure. -/
def analyzeProject (collab : ScanCollab) : Analysis :=
  match collab.sourceFilesRes with
  | Except.error _ => { files := [], overallHealth := "error" }
  | Except.ok sourceFiles =>
    { files := (sourceFiles.take 5).filterMap (fun f =>
        match collab.fileAnalysisRes f.path with
        | Except.ok a => some { name := f.name, analysis := a }
        | Except.error _ => none)
      overallHealth := "unknown" }

/-- Model of `generateRecommendations(issues, analysis)` (scanner.js lines 148-186):
zero issues yields the fixed low-priority recommendation; otherwise the AI
responder's single text is wrapped as one high-priority entry, and its failure
is caught and yields `[]`. -/
def generateRecommendations (issues : IssuesResult)
    (recGen : Except String String) : List Recommendation :=
  if issues.issues.isEmpty then
    [{ priority := "low"
       suggestion := "Keep code reviewed regularly"
       reason := "No critical issues found" }]
  else
    match recGen with
    | Except.ok response =>
      [{ priority := "high"
         suggestion := response
         reason := "AI-generated recommendations based on scan" }]
    | Except.error _ => []

/-- Outcome of one `performScan()` call. `issueFileAttempt` records the call to
the issue-reporter collaborator if one was made (scanner.js lines 89-91); its
outcome is caught inside `createIssueFromScan` (lines 192-206) and never
affects the scan result or state. -/
structure ScanOut where
  result : Except String Report
  state : ScannerState
  issueFileAttempt : Option (Except String Nat)

/-- Model of `performScan()` (scanner.js lines 56-103): structure fetch and issue
detection propagate their error through the outer catch (lines 99-102, which
logs and rethrows); the remaining steps swallow their own failures. The report
is stored in `this.lastScan` (line 81) only after being fully assembled. -/
def performScan (cfg : ScanConfig) (st : ScannerState) (now dur : Nat)
    (collab : ScanCollab) : ScanOut :=
  match collab.structureRes with
  | Except.error e => { result := Except.error e, state := st, issueFileAttempt := none }
  | Except.ok projStructure =>
    match collab.issuesRes with
    | Except.error e => { result := Except.error e, state := st, issueFileAttempt := none }
    | Except.ok issues =>
      let analysis := analyzeProject collab
      let report : Report :=
        { timestamp := now
          duration := dur
          projStructure := projStructure
          issues := issues.issues
          analysis := analysis
          recommendations := generateRecommendations issues collab.recGenRes }
      { result := Except.ok report
        state := { lastScan := some report }
        issueFileAttempt :=
          if cfg.enableAutoFix && issues.issues.length > 0
          then some collab.createIssueRes else none }

/-- Model of `getLastScan()` (scanner.js lines 256-258). -/
def getLastScan (st : ScannerState) : Option Report := st.lastScan

/-! ## Chat agent (`public/src/agents/chat.js`) -/

/-- One conversation message (chat.js lines 59-63): role, content, and the ISO
timestamp (modelled as the numeric time of the call). -/
structure Message where
  role : String
  content : String
  timestamp : Nat
deriving DecidableEq, Repr

/-- The conversation's `projectContext` after the lazy load (chat.js lines
49-56): the structure snapshot, onto which a `readme` property is glued by
`context.projectContext.readme = await projectService.getReadme()`.
`readme = none` when that second assignment never ran. -/
structure ProjectContext where
  files : List FileEntry
  directories : List DirEntry
  timestamp : Nat
  readme : Option String
deriving DecidableEq, Repr

/-- A conversation context object (chat.js lines 22-27). -/
structure Conversation where
  sessionId : String
  startedAt : Nat
  messages : List Message
  projectContext : Option ProjectContext
deriving DecidableEq, Repr

/-- The ChatAgent state: `this.conversations`, a JS `Map` modelled as an
association list in insertion order. -/
structure ChatState where
  conversations : List (String × Conversation)
deriving DecidableEq, Repr

/-- State of `new ChatAgent()` (chat.js lines 12-14). -/
def initChat : ChatState := { conversations := [] }

/-- Model of `Map.prototype.get`: the value stored under the first (and, as the
store only inserts via `mapSet`, only) binding of the key. -/
def mapGet : List (String × Conversation) → String → Option Conversation
  | [], _ => none
  | (k1, v1) :: rest, k => if k1 == k then some v1 else mapGet rest k

/-- Model of `Map.prototype.set`: replace in place if the key exists, else append. -/
def mapSet : List (String × Conversation) → String → Conversation →
    List (String × Conversation)
  | [], k, v => [(k, v)]
  | (k1, v1) :: rest, k, v =>
    if k1 == k then (k, v) :: rest else (k1, v1) :: mapSet rest k v

/-- Fresh context object built by `startConversation(sessionId)` (chat.js lines 21-33). -/
def freshConversation (sessionId : String) (now : Nat) : Conversation :=
  { sessionId := sessionId, startedAt := now, messages := [], projectContext := none }

/-- Repo metadata used by `/status` (`githubService.getRepoInfo()`). -/
structure RepoInfo where
  name : String
  defaultBranch : String
  stargazersCount : Nat
  updatedAt : Nat
deriving DecidableEq, Repr

/-- A GitHub issue as used by `/issues` (`githubService.listIssues('open')`). -/
structure GhIssue where
  number : Nat
  title : String
deriving DecidableEq, Repr

/-- Collaborator outcomes for one `processMessage` turn: what each awaited
collaborator call would settle to if made during this turn. -/
structure ChatCollab where
  structureLoad : Except String ProjStructure
  readmeLoad : Except String String
  scanRes : Except String IssuesResult
  repoInfoRes : Except String RepoInfo
  openIssuesRes : Except String (List GhIssue)
  chatRes : Except String String

/-- Stand-in for `new Date(...).toLocaleDateString()` in `/status` output. -/
def formatDate (t : Nat) : String := toString t

/-- Model of `handleScanCommand(context)` (chat.js lines 130-149): its own try/catch
turns a scan failure into a reply string, so the handler itself never throws. -/
def handleScanCommand (collab : ChatCollab) : String :=
  match collab.scanRes with
  | Except.error e => "❌ Scan failed: " ++ e
  | Except.ok scanResults =>
    if scanResults.issues.length == 0 then
      "✅ Scan complete! No issues detected in the project."
    else
      let issuesList := String.intercalate "\n" (scanResults.issues.map
        (fun i => "• [" ++ i.severity.toUpper ++ "] " ++ i.message ++ " (" ++ i.file ++ ")"))
      "⚠️ Scan found " ++ toString scanResults.issues.length ++ " issues:\n\n" ++ issuesList

/-- Model of `handleStatusCommand(context)` (chat.js lines 156-170); failures of either
collaborator call are caught into the reply string. -/
def handleStatusCommand (collab : ChatCollab) : String :=
  match collab.repoInfoRes with
  | Except.error e => "❌ Failed to get status: " ++ e
  | Except.ok repoInfo =>
    match collab.openIssuesRes with
    | Except.error e => "❌ Failed to get status: " ++ e
    | Except.ok issues =>
      "📊 Project Status:\n- Repository: " ++ repoInfo.name ++
      "\n- Default Branch: " ++ repoInfo.defaultBranch ++
      "\n- Stars: " ++ toString repoInfo.stargazersCount ++
      "\n- Open Issues: " ++ toString issues.length ++
      "\n- Last Updated: " ++ formatDate repoInfo.updatedAt

/-- Model of `handleIssuesCommand(context)` (chat.js lines 177-194). -/
def handleIssuesCommand (collab : ChatCollab) : String :=
  match collab.openIssuesRes with
  | Except.error e => "❌ Failed to get issues: " ++ e
  | Except.ok issues =>
    if issues.length == 0 then "✅ No open issues!"
    else
      let issuesList := String.intercalate "\n" ((issues.take 5).map
        (fun i => "• #" ++ toString i.number ++ ": " ++ i.title))
      "📋 Open Issues (showing " ++ toString (min 5 issues.length) ++ " of " ++
        toString issues.length ++ "):\n\n" ++ issuesList

/-- Model of `getHelpText()` (chat.js lines 226-241). -/
def getHelpText : String :=
  "🤖 AI Agent Help\n\nAvailable Commands:\n• /scan - Scan project for issues\n• /status - Get project status\n• /issues - List open GitHub issues\n• /help - Show this help message\n\nOr just chat normally for project assistance!\n\nExamples:\n- \"What are the main components of this project?\"\n- \"How do I deploy this?\"\n- \"Analyze the Dockerfile for me\""

/-- Model of `buildAIContext(context)` (chat.js lines 201-220). -/
def buildAIContext (c : Conversation) : String :=
  let base := "You are an AI assistant helping with software development."
  let withProj :=
    match c.projectContext with
    | some pc => base ++ "\n\nProject Information:\n- Files: " ++
        toString pc.files.length ++ "\n- Directories: " ++ toString pc.directories.length
    | none => base
  if c.messages.length > 0 then
    let recentMessages := c.messages.drop (c.messages.length - 6)
    withProj ++ "\n\nRecent Context:\n" ++
      String.join (recentMessages.map (fun m =>
        (if m.role == "user" then "User" else "Assistant") ++ ": " ++ m.content ++ "\n"))
  else withProj

/-- The arguments of the one call `handleMessage` makes to the AI responder
(`geminiService.chat(message)`, chat.js line 120): the message, and the context
argument passed along with it — `none` because the source passes only the
message (the `aiContext` local built on line 119 goes unused). -/
structure AIRequest where
  message : String
  contextArg : Option String
deriving DecidableEq, Repr

/-- Result of `handleMessage`: the settled value of the returned promise, plus
a record of the AI-responder call if one was made. -/
structure DispatchResult where
  reply : Except String String
  aiRequest : Option AIRequest

/-- Boolean test that one character list is an initial segment of another. -/
def listIsPrefixOf : List Char → List Char → Bool
  | [], _ => true
  | _ :: _, [] => false
  | a :: as, b :: bs => a == b && listIsPrefixOf as bs

/-- Model of `String.prototype.startsWith(p)`: the characters of `p` form an
initial segment of the characters of `s`. (Defined over `.data` because the
library `String.startsWith` is an opaque native loop.) -/
def jsStartsWith (s p : String) : Bool := listIsPrefixOf p.data s.data

/-- Model of `handleMessage(message, context)` (chat.js lines 100-123): command prefix
dispatch; the fall-through builds `aiContext` (line 119, unused by the source)
and awaits `geminiService.chat(message)` — only the message is forwarded. -/
def handleMessage (message : String) (c : Conversation) (collab : ChatCollab) :
    DispatchResult :=
  if jsStartsWith message "/scan" then
    { reply := Except.ok (handleScanCommand collab), aiRequest := none }
  else if jsStartsWith message "/status" then
    { reply := Except.ok (handleStatusCommand collab), aiRequest := none }
  else if jsStartsWith message "/issues" then
    { reply := Except.ok (handleIssuesCommand collab), aiRequest := none }
  else if jsStartsWith message "/help" then
    { reply := Except.ok getHelpText, aiRequest := none }
  else
    let _aiContext := buildAIContext c
    { reply := collab.chatRes, aiRequest := some { message := message, contextArg := none } }

/-- Result of one `processMessage` turn. -/
structure ProcessOut where
  reply : String
  state : ChatState
  aiRequest : Option AIRequest

/-- Model of `processMessage(sessionId, message)` (chat.js lines 41-92):
create the conversation implicitly if absent; lazily load `projectContext`
inside its own try/catch (lines 49-56: the structure is assigned first, then
the readme is glued on, so a readme failure leaves a context without readme
while a structure failure leaves it unset); append the user message; dispatch;
on dispatch failure, catch and reply "Sorry, I encountered an error: <msg>",
appending it as the assistant message. Every path stores the conversation back
into the map and returns the reply (the turn never rejects). -/
def processMessage (st : ChatState) (sessionId message : String) (now : Nat)
    (collab : ChatCollab) : ProcessOut :=
  let c0 := match mapGet st.conversations sessionId with
    | some c => c
    | none => freshConversation sessionId now
  let c1 := match c0.projectContext with
    | some _ => c0
    | none =>
      match collab.structureLoad with
      | Except.error _ => c0
      | Except.ok s =>
        match collab.readmeLoad with
        | Except.ok r =>
          { c0 with projectContext := some ({
              files := s.files, directories := s.directories,
              timestamp := s.timestamp, readme := some r }) }
        | Except.error _ =>
          { c0 with projectContext := some ({
              files := s.files, directories := s.directories,
              timestamp := s.timestamp, readme := none }) }
  let c2 := { c1 with messages := c1.messages ++
    [{ role := "user", content := message, timestamp := now }] }
  let d := handleMessage message c2 collab
  match d.reply with
  | Except.ok response =>
    let c3 := { c2 with messages := c2.messages ++
      [{ role := "assistant", content := response, timestamp := now }] }
    { reply := response
      state := { conversations := mapSet st.conversations sessionId c3 }
      aiRequest := d.aiRequest }
  | Except.error e =>
    let errorResponse := "Sorry, I encountered an error: " ++ e
    let c3 := { c2 with messages := c2.messages ++
      [{ role := "assistant", content := errorResponse, timestamp := now }] }
    { reply := errorResponse
      state := { conversations := mapSet st.conversations sessionId c3 }
      aiRequest := d.aiRequest }

/-- Model of `getHistory(sessionId)` (chat.js lines 248-251). -/
def chatHistory (st : ChatState) (sessionId : String) : List Message :=
  match mapGet st.conversations sessionId with
  | some c => c.messages
  | none => []

/-! ## Helper lemmas: task runner -/

/-- The retry loop never changes the task's identifier. -/
lemma execAttempts_id : ∀ (rem attempt : Nat) (t : Task),
    (execAttempts t attempt rem).fst.id = t.id := by
  intro rem
  induction rem with
  | zero => intro attempt t; rfl
  | succ r ih =>
    intro attempt t
    simp only [execAttempts]
    cases hx : Task.exec { t with attempts := attempt, status := Status.running } attempt with
    | ok v => simp
    | error e =>
      by_cases hr : r = 0
      · simp [hr]
      · simpa [hr] using ih (attempt + 1) _

/-- When every attempt from `attempt` up to `task.retries` fails, the loop runs
all remaining attempts, waits `1000 * k` ms after each failed non-final attempt
`k`, and ends with the task failed carrying the final attempt's error. -/
lemma execAttempts_allFail (m : String) : ∀ (rem : Nat) (t : Task) (attempt : Nat),
    rem + attempt = t.retries →
    (∀ k, attempt ≤ k → k ≤ t.retries → isOkB (t.exec k) = false) →
    t.exec t.retries = Except.error m →
    execAttempts t attempt (rem + 1) =
      ({ t with attempts := t.retries, status := Status.failed, error := some m },
       (List.range rem).map (fun k => 1000 * (attempt + k))) := by
  intro rem
  induction rem with
  | zero =>
    intro t attempt h0 _ hlast
    have ha : attempt = t.retries := by omega
    subst ha
    simp only [execAttempts]
    have hx : Task.exec { t with attempts := t.retries, status := Status.running } t.retries =
        Except.error m := hlast
    rw [hx]
    simp
  | succ r ih =>
    intro t attempt h0 hfail hlast
    have hnow : isOkB (t.exec attempt) = false := hfail attempt (le_refl _) (by omega)
    obtain ⟨e, he⟩ : ∃ e, t.exec attempt = Except.error e := by
      cases hx : t.exec attempt with
      | ok v => rw [hx] at hnow; simp [isOkB] at hnow
      | error e => exact ⟨e, rfl⟩
    have hrec := ih { t with attempts := attempt, status := Status.running } (attempt + 1)
      (by show r + (attempt + 1) = t.retries; omega)
      (fun k hk1 hk2 => hfail k (by omega) hk2)
      hlast
    conv_lhs => rw [execAttempts]
    have hx : Task.exec { t with attempts := attempt, status := Status.running } attempt =
        Except.error e := he
    rw [hx]
    have hif : ¬ (r + 1 = 0) := by omega
    simp only [hif, ite_false, hrec]
    simp only [Prod.mk.injEq]
    constructor
    · trivial
    · rw [List.range_succ_eq_map, List.map_cons, List.map_map]
      congr 1
      exact List.map_congr_left (fun k _ => by simp only [Function.comp_apply]; omega)

/-- CLAIM C1. A task whose action rejects (or times out) on every attempt is
attempted exactly `retries` times by `executeTask`; the backoff delays awaited
between consecutive attempts are `1000 * attempt` ms for attempts `1` through
`retries - 1`; the task ends in `failed` status with the final attempt's error
recorded in its `error` field; and `executeTask` returns the failed task as
data (a `runAll` pass over a non-running queue containing the task appends
that failed task to the execution history rather than throwing). -/
theorem executeTask_allFail_exhausts_retries (t : Task) (m : String)
    (hr : 1 ≤ t.retries)
    (hfail : ∀ k, 1 ≤ k → k ≤ t.retries → isOkB (t.exec k) = false)
    (hlast : t.exec t.retries = Except.error m) :
    (executeTask t).fst.status = Status.failed ∧
    (executeTask t).fst.error = some m ∧
    (executeTask t).fst.attempts = t.retries ∧
    (executeTask t).snd = (List.range (t.retries - 1)).map (fun k => 1000 * (k + 1)) ∧
    (∀ s : RunnerState, s.isRunning = false → t ∈ s.tasks →
      (executeTask t).fst ∈ (runAll s).snd.executedTasks) := by
  have hre : t.retries - 1 + 1 = t.retries := by omega
  have key := execAttempts_allFail m (t.retries - 1) t 1 (by omega)
    (fun k hk1 hk2 => hfail k hk1 hk2) hlast
  rw [hre] at key
  have hexec : executeTask t = execAttempts t 1 t.retries := rfl
  rw [hexec, key]
  refine ⟨rfl, rfl, rfl, ?_, ?_⟩
  · exact List.map_congr_left (fun k _ => by ring_nf)
  · intro s hs hmem
    rw [← key, ← hexec]
    simp only [runAll, hs, if_false, Bool.false_eq_true]
    exact List.mem_append_right _ (List.mem_map_of_mem _ hmem)

/-- Concrete instance of C1: a task with 3 retries whose action always rejects
with "boom" ends failed with error "boom", 3 attempts, delays 1000 and 2000 ms,
and its failed snapshot lands in the history of a `runAll` pass. -/
def c1DemoTask : Task :=
  { id := 7, name := "f", priority := 5, exec := fun _ => Except.error "boom",
    retries := 3, timeout := 30000, status := Status.pending,
    result := none, error := none, attempts := 0 }

/-- Demo runner state holding only `c1DemoTask`. -/
def c1DemoState : RunnerState :=
  { tasks := [c1DemoTask], isRunning := false, executedTasks := [] }

/-- Witness for C1 at the concrete always-failing task. -/
theorem executeTask_allFail_exhausts_retries_witness :
    (executeTask c1DemoTask).fst.status = Status.failed ∧
    (executeTask c1DemoTask).fst.error = some "boom" ∧
    (executeTask c1DemoTask).fst.attempts = 3 ∧
    (executeTask c1DemoTask).snd = [1000, 2000] ∧
    (executeTask c1DemoTask).fst ∈ (runAll c1DemoState).snd.executedTasks := by
  obtain ⟨h1, h2, h3, h4, h5⟩ :=
    executeTask_allFail_exhausts_retries c1DemoTask "boom" (by decide)
      (fun k _ _ => rfl) rfl
  exact ⟨h1, h2, h3, by simpa using h4, h5 c1DemoState rfl (by simp [c1DemoState])⟩

/-- Any successful `addTask` leaves the whole pending list sorted by
descending priority (the source re-sorts the entire list on every insert). -/
lemma addTask_ok_sorted (s : RunnerState) (sp : TaskSpec) (s1 : RunnerState)
    (h : addTask s sp = Except.ok s1) : List.Sorted taskGE s1.tasks := by
  unfold addTask at h
  split at h
  · exact absurd h (by simp)
  · cases h
    exact List.sorted_insertionSort taskGE _

/-- A runner built by submissions from a sorted queue keeps a sorted queue. -/
lemma submitAll_sorted (specs : List TaskSpec) : ∀ (s : RunnerState),
    List.Sorted taskGE s.tasks → List.Sorted taskGE (submitAll s specs).tasks := by
  induction specs with
  | nil => intro s hs; exact hs
  | cons sp rest ih =>
    intro s hs
    simp only [submitAll, List.foldl_cons]
    cases h : addTask s sp with
    | ok s1 => exact ih s1 (addTask_ok_sorted s sp s1 h)
    | error e => exact ih s hs

/-- Submissions do not touch the single-flight flag. -/
lemma submitAll_isRunning (specs : List TaskSpec) : ∀ (s : RunnerState),
    (submitAll s specs).isRunning = s.isRunning := by
  induction specs with
  | nil => intro s; rfl
  | cons sp rest ih =>
    intro s
    simp only [submitAll, List.foldl_cons]
    cases h : addTask s sp with
    | ok s1 =>
      have h1 : s1.isRunning = s.isRunning := by
        unfold addTask at h
        split at h
        · exact absurd h (by simp)
        · cases h; rfl
      show (submitAll s1 rest).isRunning = s.isRunning
      rw [ih s1, h1]
    | error e => exact ih s

/-- Demo task specifications for the priority scenario: ids 1, 2, 3 with
priorities 1, 9, 5, each with an action that succeeds immediately. -/
def c2Spec (i : Int) (p : Int) : TaskSpec :=
  { id := some i, name := some ("t" ++ toString i), priority := some p,
    execute := some (fun _ => Except.ok "v"), retries := none, timeout := none }

/-- Demo queue: priorities 1, 9, 5 submitted in that order. -/
def c2Queue : RunnerState := submitAll initRunner [c2Spec 1 1, c2Spec 2 9, c2Spec 3 5]

/-- CLAIM C2. In a queue built by submissions to a fresh runner, a task with
strictly greater priority sits at a strictly smaller queue index than a task
with smaller priority; a non-overlapping `runAll()` pass invokes the actions
exactly in queue-index order (its results list is the queue mapped through
`executeTask` in order); hence the higher-priority task starts no later.
In particular, submitting tasks with priorities 1, 9, 5 and running the queue
executes them in priority order 9, 5, 1 (the scenario in the witness). -/
theorem runAll_priority_order (specs : List TaskSpec)
    (i j : Fin (submitAll initRunner specs).tasks.length)
    (hp : ((submitAll initRunner specs).tasks.get j).priority <
          ((submitAll initRunner specs).tasks.get i).priority) :
    (i : Nat) < (j : Nat) ∧
    ((runAll (submitAll initRunner specs)).fst =
      (submitAll initRunner specs).tasks.map (fun t => (executeTask t).fst) ∧
    (runAll c2Queue).fst.map Task.id = [2, 3, 1]) := by
  refine ⟨?_, ?_, by decide⟩
  · by_contra hc
    push_neg at hc
    have hsorted : List.Sorted taskGE (submitAll initRunner specs).tasks :=
      submitAll_sorted specs initRunner (List.Pairwise.nil)
    rcases Nat.lt_or_ge (j : Nat) (i : Nat) with hji | hij
    · have := (List.pairwise_iff_get.mp hsorted) j i hji
      exact absurd hp (not_lt.mpr this)
    · have hcc : (i : Nat) = (j : Nat) := le_antisymm hij hc
      have : i = j := Fin.ext hcc
      subst this
      exact lt_irrefl _ hp
  · have hrun : (submitAll initRunner specs).isRunning = false :=
      submitAll_isRunning specs initRunner
    simp only [runAll, hrun, Bool.false_eq_true, if_false]

/-- Witness for C2: in the demo queue the priority-9 task precedes the
priority-5 task, a full pass executes the queue in order, and the recorded
execution order is ids 2, 3, 1, i.e. priorities 9, 5, 1. -/
theorem runAll_priority_order_witness :
    (0 : Nat) < (1 : Nat) ∧
    ((runAll (submitAll initRunner [c2Spec 1 1, c2Spec 2 9, c2Spec 3 5])).fst =
      (submitAll initRunner [c2Spec 1 1, c2Spec 2 9, c2Spec 3 5]).tasks.map
        (fun t => (executeTask t).fst) ∧
    (runAll c2Queue).fst.map Task.id = [2, 3, 1]) :=
  runAll_priority_order [c2Spec 1 1, c2Spec 2 9, c2Spec 3 5]
    ⟨0, by decide⟩ ⟨1, by decide⟩ (by decide)

/-- CLAIM C9. A submission is rejected (the source throws) exactly when the
identifier, name, or action is absent or falsy — `id: 0` and `name: ''` are
falsy, hence rejected like missing fields — and a rejected submission leaves
the runner (pending queue and history alike) unchanged, because the throw
happens before the push. -/
theorem addTask_validation (s : RunnerState) (spec : TaskSpec) :
    (addTask s spec = Except.error "Task must have id, name, and execute function" ↔
      (jsFalsyId spec.id = true ∨ jsFalsyName spec.name = true ∨
        spec.execute.isNone = true)) ∧
    jsFalsyId (some 0) = true ∧ jsFalsyName (some "") = true ∧
    (∀ msg, addTask s spec = Except.error msg → submitAll s [spec] = s) := by
  refine ⟨?_, rfl, by decide, ?_⟩
  · unfold addTask
    by_cases h : (jsFalsyId spec.id || jsFalsyName spec.name || spec.execute.isNone) = true
    · rw [if_pos h]
      refine iff_of_true rfl ?_
      simp only [Bool.or_eq_true] at h
      tauto
    · rw [if_neg h]
      refine iff_of_false (by simp) ?_
      simp only [Bool.or_eq_true] at h
      tauto
  · intro msg hmsg
    simp only [submitAll, List.foldl_cons, List.foldl_nil, hmsg]

/-- Demo of a falsy submission: numeric identifier 0 is falsy in JS. -/
def c9BadSpec : TaskSpec :=
  { id := some 0, name := some "zero-id", priority := none,
    execute := some (fun _ => Except.ok "v"), retries := none, timeout := none }

/-- Witness for C9: a spec with `id: 0` is rejected and the runner is unchanged. -/
theorem addTask_validation_witness :
    addTask initRunner c9BadSpec =
      Except.error "Task must have id, name, and execute function" ∧
    submitAll initRunner [c9BadSpec] = initRunner := by
  have h := addTask_validation initRunner c9BadSpec
  have herr := h.1.mpr (Or.inl rfl)
  exact ⟨herr, h.2.2.2 _ herr⟩

/-- Demo for C3: one valid task whose single allowed attempt always fails. -/
def c3Spec : TaskSpec :=
  { id := some 1, name := some "t", priority := none,
    execute := some (fun _ => Except.error "boom"), retries := some 1, timeout := none }

/-- Demo runner state holding the C3 task. -/
def c3S0 : RunnerState := submitAll initRunner [c3Spec]

/-- COUNTEREXAMPLE to CLAIM C3. After a first `runAll()` the task is terminal
(`failed`, snapshot in history), yet it is still held as pending work: a second
`runAll()` executes its action again and appends a second history entry,
refuting "a subsequent runAll() call does not execute its action again". -/
theorem runAll_reexecutes_terminal_counterexample :
    (runAll c3S0).snd.executedTasks.map Task.status = [Status.failed] ∧
    (runAll c3S0).snd.tasks.map Task.status = [Status.failed] ∧
    (runAll (runAll c3S0).snd).snd.executedTasks.map Task.status =
      [Status.failed, Status.failed] := by
  exact ⟨by decide, by decide, by decide⟩

/-- CLAIM C3 as amended. When a task reaches a terminal state during a
`runAll()` pass, its snapshot is appended to the execution history and earlier
history entries are preserved unchanged (append-only); but the task is not
removed from the pending list — the next pass keeps the same queue length and
executes every queue entry again, terminal or not. -/
theorem runAll_history_append_terminal_stays_queued (s : RunnerState)
    (h : s.isRunning = false) :
    (runAll s).snd.executedTasks = s.executedTasks ++ (runAll s).fst ∧
    (runAll s).fst = s.tasks.map (fun t => (executeTask t).fst) ∧
    (runAll s).snd.tasks = (runAll s).fst := by
  simp [runAll, h]

/-- Witness for the amended C3 at the concrete one-task state. -/
theorem runAll_history_append_terminal_stays_queued_witness :
    (runAll c3S0).snd.executedTasks = c3S0.executedTasks ++ (runAll c3S0).fst ∧
    (runAll c3S0).fst = c3S0.tasks.map (fun t => (executeTask t).fst) ∧
    (runAll c3S0).snd.tasks = (runAll c3S0).fst :=
  runAll_history_append_terminal_stays_queued c3S0 rfl

/-! ## Theorems: report cache -/

/-- COUNTEREXAMPLE to CLAIM C4. On an empty cache with a failing remote reader,
`getProjectStructure` does not fail with the collaborator's error: the catch at
project.js lines 60-64 swallows it and resolves with the built-in mock
structure instead. -/
theorem cache_remote_error_returns_mock_counterexample :
    (getProjectStructure initProjectService 0 (Except.error "network down")).result =
      Except.ok (getMockProjectStructure 0) ∧
    (getProjectStructure initProjectService 0 (Except.error "network down")).result ≠
      Except.error "network down" ∧
    (getProjectStructure initProjectService 0 (Except.error "network down")).remoteCalls = 1 := by
  exact ⟨by decide, by decide, by decide⟩

/-- CLAIM C4 as amended. When the cache is stale or empty and the remote reader
fails, `get()` invokes the reader once, catches its error, and resolves with the
fixed mock structure; the error is not propagated and the cache (snapshot and
expiry alike) is left unchanged, so no fallback data is stored. -/
theorem cache_remote_error_swallowed (s : ProjectServiceState) (now : Nat) (e : String)
    (hstale : s.cachedProjectStructure = none ∨ s.cacheExpiry ≤ now) :
    getProjectStructure s now (Except.error e) =
      { result := Except.ok (getMockProjectStructure now), state := s, remoteCalls := 1 } := by
  cases hc : s.cachedProjectStructure with
  | none => simp [getProjectStructure, hc, getProjectStructureFetch]
  | some c =>
    rcases hstale with h | h
    · rw [hc] at h; cases h
    · simp [getProjectStructure, hc, getProjectStructureFetch, Nat.not_lt.mpr h]

/-- Witness for the amended C4 at the concrete empty cache. -/
theorem cache_remote_error_swallowed_witness :
    getProjectStructure initProjectService 5 (Except.error "auth failed") =
      { result := Except.ok (getMockProjectStructure 5),
        state := initProjectService, remoteCalls := 1 } :=
  cache_remote_error_swallowed initProjectService 5 "auth failed" (Or.inl rfl)

/-- CLAIM C5. With a snapshot cached and unexpired (`now < expiry`), `get()`
resolves with the identical cached snapshot, performs no remote call, and
leaves the cache untouched — whatever the remote reader would have produced.
With the cache empty or expired (`expiry ≤ now`, so exactly from `t + TTL` on
for a snapshot stored at `t`), a successful `get()` invokes the reader exactly
once and stores the freshly built snapshot with the new expiry `now + 5min`. -/
theorem cache_ttl_hit_and_refresh :
    (∀ (s : ProjectServiceState) (now : Nat) (rem : Except String (List RemoteEntry))
        (c : ProjStructure), s.cachedProjectStructure = some c → now < s.cacheExpiry →
      getProjectStructure s now rem = { result := Except.ok c, state := s, remoteCalls := 0 }) ∧
    (∀ (s : ProjectServiceState) (now : Nat) (root : List RemoteEntry),
        s.cachedProjectStructure = none ∨ s.cacheExpiry ≤ now →
      getProjectStructure s now (Except.ok root) =
        { result := Except.ok (buildStructure root now)
          state := { cachedProjectStructure := some (buildStructure root now)
                     cacheExpiry := now + 5 * 60 * 1000 }
          remoteCalls := 1 }) := by
  constructor
  · intro s now rem c hc hlt
    simp [getProjectStructure, hc, hlt]
  · intro s now root hstale
    cases hc : s.cachedProjectStructure with
    | none => simp [getProjectStructure, hc, getProjectStructureFetch, CACHE_TTL]
    | some c =>
      rcases hstale with h | h
      · rw [hc] at h; cases h
      · simp [getProjectStructure, hc, getProjectStructureFetch, CACHE_TTL, Nat.not_lt.mpr h]

/-- Demo remote listing for the C5 scenario. -/
def c5Entry : RemoteEntry := { name := "a.js", path := "a.js", size := 10, type := EntryType.file }

/-- Cache state after a successful fetch at `t = 0`. -/
def c5AfterFirst : ProjectServiceState :=
  (getProjectStructure initProjectService 0 (Except.ok [c5Entry])).state

/-- Witness for C5, the spec's scenario with TTL = 5 min: `get()` at t=0 is a
miss that calls the remote reader and stores expiry 300000; at t=4min it is a
hit returning the identical snapshot with no remote call; at t=6min it is a
miss that calls the reader exactly once more and restores a fresh expiry. -/
theorem cache_ttl_hit_and_refresh_witness :
    getProjectStructure initProjectService 0 (Except.ok [c5Entry]) =
      { result := Except.ok (buildStructure [c5Entry] 0)
        state := { cachedProjectStructure := some (buildStructure [c5Entry] 0)
                   cacheExpiry := 0 + 5 * 60 * 1000 }
        remoteCalls := 1 } ∧
    getProjectStructure c5AfterFirst 240000 (Except.error "remote would fail") =
      { result := Except.ok (buildStructure [c5Entry] 0)
        state := c5AfterFirst, remoteCalls := 0 } ∧
    getProjectStructure c5AfterFirst 360000 (Except.ok [c5Entry]) =
      { result := Except.ok (buildStructure [c5Entry] 360000)
        state := { cachedProjectStructure := some (buildStructure [c5Entry] 360000)
                   cacheExpiry := 360000 + 5 * 60 * 1000 }
        remoteCalls := 1 } := by
  refine ⟨?_, ?_, ?_⟩
  · exact cache_ttl_hit_and_refresh.2 initProjectService 0 [c5Entry] (Or.inl rfl)
  · exact cache_ttl_hit_and_refresh.1 c5AfterFirst 240000 _ (buildStructure [c5Entry] 0)
      (by decide) (by decide)
  · exact cache_ttl_hit_and_refresh.2 c5AfterFirst 360000 [c5Entry] (Or.inr (by decide))

/-! ## Theorems: scan orchestrator -/

/-- CLAIM C6. A `performScan()` call fails exactly when the structure fetch or
the issue-detector call fails — whatever the per-file analysis, recommendation
generation, and issue-filing collaborators do, including failing; when it fails
the propagated error is one of those two collaborators' errors and the stored
most-recent report is untouched; when it succeeds, the complete returned report
becomes the stored most-recent report. -/
theorem performScan_failure_containment (cfg : ScanConfig) (st : ScannerState)
    (now dur : Nat) (collab : ScanCollab) :
    isOkB (performScan cfg st now dur collab).result =
      (isOkB collab.structureRes && isOkB collab.issuesRes) ∧
    (∀ e, (performScan cfg st now dur collab).result = Except.error e →
      (collab.structureRes = Except.error e ∨ collab.issuesRes = Except.error e) ∧
      getLastScan (performScan cfg st now dur collab).state = st.lastScan) ∧
    (∀ r, (performScan cfg st now dur collab).result = Except.ok r →
      getLastScan (performScan cfg st now dur collab).state = some r) := by
  cases hs : collab.structureRes with
  | error e1 =>
    refine ⟨by simp [performScan, hs, isOkB], ?_, ?_⟩
    · intro e he
      simp only [performScan, hs] at he ⊢
      cases he
      exact ⟨Or.inl rfl, rfl⟩
    · intro r hr
      simp only [performScan, hs] at hr
      cases hr
  | ok ps =>
    cases hi : collab.issuesRes with
    | error e2 =>
      refine ⟨by simp [performScan, hs, hi, isOkB], ?_, ?_⟩
      · intro e he
        simp only [performScan, hs, hi] at he ⊢
        cases he
        exact ⟨Or.inr rfl, rfl⟩
      · intro r hr
        simp only [performScan, hs, hi] at hr
        cases hr
    | ok issues =>
      refine ⟨by simp [performScan, hs, hi, isOkB], ?_, ?_⟩
      · intro e he
        simp only [performScan, hs, hi] at he
        cases he
      · intro r hr
        simp only [performScan, hs, hi] at hr ⊢
        cases hr
        rfl

/-- Demo collaborators for the C6 witness: the structure fetch fails while all
later steps are set up to fail too, showing the error propagated is precisely
the structure fetch's and `lastScan` is untouched. -/
def c6Collab : ScanCollab :=
  { structureRes := Except.error "structure fetch down"
    issuesRes := Except.ok { issues := [], timestamp := 0, scanDuration := "immediate" }
    sourceFilesRes := Except.error "sources down"
    fileAnalysisRes := fun _ => Except.error "analysis down"
    recGenRes := Except.error "gemini down"
    createIssueRes := Except.error "github down"
    autoModifyRes := Except.error "modify down" }

/-- Demo prior scanner state with a sentinel previous report. -/
def c6PrevReport : Report :=
  { timestamp := 1, duration := 2
    projStructure := { files := [], directories := [], timestamp := 0 }
    issues := [], analysis := { files := [], overallHealth := "unknown" }
    recommendations := [] }

/-- Witness for C6: with a failing structure fetch the scan result is that very
error and the previously stored report is still the last scan. -/
theorem performScan_failure_containment_witness :
    isOkB (performScan { enableAutoFix := true, enableAutoModify := true }
        { lastScan := some c6PrevReport } 9 3 c6Collab).result = false ∧
    (c6Collab.structureRes = Except.error "structure fetch down" ∨
      c6Collab.issuesRes = Except.error "structure fetch down") ∧
    getLastScan (performScan { enableAutoFix := true, enableAutoModify := true }
        { lastScan := some c6PrevReport } 9 3 c6Collab).state = some c6PrevReport := by
  have h := performScan_failure_containment { enableAutoFix := true, enableAutoModify := true }
    { lastScan := some c6PrevReport } 9 3 c6Collab
  have h2 := h.2.1 "structure fetch down" rfl
  exact ⟨by simpa using h.1, h2.1, h2.2⟩

/-! ## Theorems: chat agent -/

/-- Looking up a key immediately after storing it yields the stored value. -/
lemma mapGet_mapSet_self : ∀ (m : List (String × Conversation)) (k : String)
    (v : Conversation), mapGet (mapSet m k v) k = some v := by
  intro m
  induction m with
  | nil => intro k v; simp [mapSet, mapGet]
  | cons p rest ih =>
    intro k v
    obtain ⟨k1, v1⟩ := p
    by_cases h : (k1 == k) = true
    · simp [mapSet, mapGet, h]
    · simp [mapSet, mapGet, h, ih]

/-- CLAIM C7. For any session, inbound text that is not a recognized command,
and any error `e` raised by the AI responder during dispatch, `processMessage`
does not re-raise: it resolves with the reply "Sorry, I encountered an error:
<message>", and that reply is appended to the conversation's message list as an
assistant message right after the appended inbound user message. -/
theorem processMessage_error_reply (st : ChatState) (sessionId message : String)
    (now : Nat) (collab : ChatCollab) (e : String)
    (h1 : jsStartsWith message "/scan" = false)
    (h2 : jsStartsWith message "/status" = false)
    (h3 : jsStartsWith message "/issues" = false)
    (h4 : jsStartsWith message "/help" = false)
    (he : collab.chatRes = Except.error e) :
    (processMessage st sessionId message now collab).reply =
      "Sorry, I encountered an error: " ++ e ∧
    (∃ pre, chatHistory (processMessage st sessionId message now collab).state sessionId =
      pre ++ [{ role := "user", content := message, timestamp := now },
              { role := "assistant", content := "Sorry, I encountered an error: " ++ e,
                timestamp := now }]) := by
  simp only [processMessage, handleMessage, h1, h2, h3, h4, Bool.false_eq_true, if_false, he]
  refine ⟨trivial, ?_⟩
  simp only [chatHistory, mapGet_mapSet_self]
  exact ⟨_, List.append_assoc _ _ _⟩

/-- Demo collaborators for the C7 witness: the responder rejects. -/
def c7Collab : ChatCollab :=
  { structureLoad := Except.error "no remote", readmeLoad := Except.error "no remote",
    scanRes := Except.error "x", repoInfoRes := Except.error "x",
    openIssuesRes := Except.error "x", chatRes := Except.error "llm down" }

/-- Witness for C7 at a fresh session with message "hi". -/
theorem processMessage_error_reply_witness :
    (processMessage initChat "s" "hi" 0 c7Collab).reply =
      "Sorry, I encountered an error: " ++ "llm down" ∧
    (∃ pre, chatHistory (processMessage initChat "s" "hi" 0 c7Collab).state "s" =
      pre ++ [{ role := "user", content := "hi", timestamp := 0 },
              { role := "assistant", content := "Sorry, I encountered an error: " ++ "llm down",
                timestamp := 0 }]) :=
  processMessage_error_reply initChat "s" "hi" 0 c7Collab "llm down" rfl rfl rfl rfl rfl

/-- Demo collaborators for the C8 evaluation: the responder would reply. -/
def c8Collab : ChatCollab :=
  { structureLoad := Except.error "no remote", readmeLoad := Except.error "no remote",
    scanRes := Except.error "x", repoInfoRes := Except.error "x",
    openIssuesRes := Except.error "x", chatRes := Except.ok "AI says hi" }

/-- CLAIM C8, evaluated at the failing input (code bug). For the non-command
message "hello", the dispatch calls the AI responder with only the message —
the context argument of the recorded responder call is `none`, because
chat.js line 119 builds `aiContext` into a local that line 120
(`geminiService.chat(message)`) never forwards — while the claim and spec say
the built context summary is forwarded together with the text. The responder's
raw text is still used as the reply. -/
theorem processMessage_context_not_forwarded :
    (processMessage initChat "s" "hello" 0 c8Collab).aiRequest =
      some { message := "hello", contextArg := none } ∧
    (processMessage initChat "s" "hello" 0 c8Collab).reply = "AI says hi" := by
  exact ⟨rfl, rfl⟩

/-- Demo structure for the C10 counterexample. -/
def c10Struct : ProjStructure :=
  { files := [{ name := "a.js", path := "a.js", size := 10 }], directories := [], timestamp := 0 }

/-- Demo collaborators for the C10 counterexample: the structure load succeeds
but the readme load fails. -/
def c10Collab : ChatCollab :=
  { structureLoad := Except.ok c10Struct, readmeLoad := Except.error "readme down",
    scanRes := Except.error "x", repoInfoRes := Except.error "x",
    openIssuesRes := Except.error "x", chatRes := Except.ok "fine" }

/-- COUNTEREXAMPLE to CLAIM C10. When the lazy project-context load fails in
its second half (structure fetched, readme fetch rejects), the conversation's
`projectContext` does not remain unset: chat.js line 51 has already assigned
the structure before line 52 throws, so the context is stored without a readme
and the next turn will not retry the load. -/
theorem processMessage_load_failure_counterexample :
    (mapGet (processMessage initChat "s" "hi" 0 c10Collab).state.conversations "s").map
        Conversation.projectContext =
      some (some { files := c10Struct.files, directories := [], timestamp := 0,
                   readme := none }) ∧
    (mapGet (processMessage initChat "s" "hi" 0 c10Collab).state.conversations "s").map
        Conversation.projectContext ≠ some none := by
  exact ⟨rfl, by decide⟩

/-- CLAIM C10 as amended. A failure of the lazy project-context load is
contained before dispatch — the turn proceeds with the inbound message appended
and the dispatch reply returned unchanged — but which part fails matters: if
the structure load fails, `projectContext` remains unset (so the guard
`!context.projectContext` makes the next turn attempt the load again, and a
later turn with a successful load stores the full context); if only the readme
load fails, `projectContext` is stored without a readme and is not reloaded. -/
theorem processMessage_load_failure_contained (st : ChatState)
    (sessionId message : String) (now : Nat) (collab : ChatCollab) (r : String)
    (h1 : jsStartsWith message "/scan" = false)
    (h2 : jsStartsWith message "/status" = false)
    (h3 : jsStartsWith message "/issues" = false)
    (h4 : jsStartsWith message "/help" = false)
    (hok : collab.chatRes = Except.ok r)
    (hfresh : mapGet st.conversations sessionId = none) :
    (∀ e, collab.structureLoad = Except.error e →
      (processMessage st sessionId message now collab).reply = r ∧
      chatHistory (processMessage st sessionId message now collab).state sessionId =
        [{ role := "user", content := message, timestamp := now },
         { role := "assistant", content := r, timestamp := now }] ∧
      (mapGet (processMessage st sessionId message now collab).state.conversations
          sessionId).map Conversation.projectContext = some none) ∧
    (∀ S e2, collab.structureLoad = Except.ok S → collab.readmeLoad = Except.error e2 →
      (processMessage st sessionId message now collab).reply = r ∧
      (mapGet (processMessage st sessionId message now collab).state.conversations
          sessionId).map Conversation.projectContext =
        some (some { files := S.files, directories := S.directories,
                     timestamp := S.timestamp, readme := none })) ∧
    (∀ S rd, collab.structureLoad = Except.ok S → collab.readmeLoad = Except.ok rd →
      (mapGet (processMessage st sessionId message now collab).state.conversations
          sessionId).map Conversation.projectContext =
        some (some { files := S.files, directories := S.directories,
                     timestamp := S.timestamp, readme := some rd })) := by
  refine ⟨?_, ?_, ?_⟩
  · intro e hse
    simp only [processMessage, handleMessage, h1, h2, h3, h4, Bool.false_eq_true, if_false,
      hok, hfresh, hse, freshConversation, chatHistory, mapGet_mapSet_self]
    exact ⟨trivial, by simp, by simp⟩
  · intro S e2 hse hre
    simp only [processMessage, handleMessage, h1, h2, h3, h4, Bool.false_eq_true, if_false,
      hok, hfresh, hse, hre, freshConversation, mapGet_mapSet_self]
    exact ⟨trivial, by simp⟩
  · intro S rd hse hre
    simp only [processMessage, handleMessage, h1, h2, h3, h4, Bool.false_eq_true, if_false,
      hok, hfresh, hse, hre, freshConversation, mapGet_mapSet_self]
    rfl

/-- Demo collaborators for the amended C10 witness: the structure load fails. -/
def c10aCollab : ChatCollab :=
  { structureLoad := Except.error "github down", readmeLoad := Except.error "github down",
    scanRes := Except.error "x", repoInfoRes := Except.error "x",
    openIssuesRes := Except.error "x", chatRes := Except.ok "normal reply" }

/-- Witness for the amended C10: with a failing structure load on a fresh
session the turn completes normally and the context stays unset. -/
theorem processMessage_load_failure_contained_witness :
    (processMessage initChat "s" "hi" 0 c10aCollab).reply = "normal reply" ∧
    chatHistory (processMessage initChat "s" "hi" 0 c10aCollab).state "s" =
      [{ role := "user", content := "hi", timestamp := 0 },
       { role := "assistant", content := "normal reply", timestamp := 0 }] ∧
    (mapGet (processMessage initChat "s" "hi" 0 c10aCollab).state.conversations
        "s").map Conversation.projectContext = some none := by
  exact (processMessage_load_failure_contained initChat "s" "hi" 0 c10aCollab
    "normal reply" rfl rfl rfl rfl rfl rfl).1 "github down" rfl

end WebappHF
